import Mathlib

/-!
Shallow embedding of `src/molecular_descriptor_generator.py`, a single-script
pipeline that generates 3D conformers for a list of molecules with six
methods, computes Mordred descriptors over many repetitions, reduces the
per-molecule distributions with `describe()[3:]`, flattens the statistics
table into one row per molecule, merges with 2D descriptors and the input
table, cleans non-numeric cells and exports the result.

External collaborators (RDKit embedding and optimization, the force-field
parameter checks, the Mordred descriptor engine, the Python float parser and
square root) are modelled as abstract function parameters; molecules are an
abstract type.  Numeric cells are modelled as `Option ℚ` (missing / value),
textual cells as `String`.
-/

namespace MolDesc

/-! ## Conformer generation (source lines 49–187) -/

/-- Accumulation loop shared by `generar_conformacion_uff` (lines 62–75) and
`generar_conformacion_mmff` (lines 93–106): for each molecule, prepare it
(`Chem.AddHs` followed by `AllChem.EmbedMolecule` with
`useBasicKnowledge=False, useExpTorsionAnglePrefs=False`), then append the
force-field-optimized molecule to the accumulator only when the force field
has all molecule parameters. -/
def bucle_conformaciones {Mol : Type} (prep : Mol → Mol) (check : Mol → Bool)
    (opt : Mol → Mol) : List Mol → List Mol → List Mol
  | [], acc => acc
  | m :: resto, acc =>
    let mh := prep m
    if check mh then bucle_conformaciones prep check opt resto (acc ++ [opt mh])
    else bucle_conformaciones prep check opt resto acc

/-- Source lines 49–78, `generar_conformacion_uff`: embed every molecule (after
adding hydrogens), keep it only if `AllChem.UFFHasAllMoleculeParams` holds and
then UFF-optimize it. -/
def generar_conformacion_uff (Mol : Type) (addHs embedBasic : Mol → Mol)
    (uffHasAllParams : Mol → Bool) (uffOptimize : Mol → Mol)
    (lista_moleculas : List Mol) : List Mol :=
  bucle_conformaciones (fun m => embedBasic (addHs m)) uffHasAllParams uffOptimize
    lista_moleculas []

/-- Source lines 80–109, `generar_conformacion_mmff`: same loop with
`AllChem.MMFFHasAllMoleculeParams` / `AllChem.MMFFOptimizeMolecule`. -/
def generar_conformacion_mmff (Mol : Type) (addHs embedBasic : Mol → Mol)
    (mmffHasAllParams : Mol → Bool) (mmffOptimize : Mol → Mol)
    (lista_moleculas : List Mol) : List Mol :=
  bucle_conformaciones (fun m => embedBasic (addHs m)) mmffHasAllParams mmffOptimize
    lista_moleculas []

/-- Loop of `generar_conformacion_etkdg` (source lines 171–184).  The version
check sits inside the per-molecule loop: with an empty molecule list the loop
body never runs and the accumulator is returned, whatever the version; with a
nonempty list an invalid version prints a message and returns `None`
(modelled as `none`). -/
def bucle_etkdg {Mol : Type} (addHs embedV1 embedV2 : Mol → Mol) (version : ℕ) :
    List Mol → List Mol → Option (List Mol)
  | [], acc => some acc
  | m :: resto, acc =>
    let mh := addHs m
    if version = 1 then bucle_etkdg addHs embedV1 embedV2 version resto (acc ++ [embedV1 mh])
    else if version = 2 then bucle_etkdg addHs embedV1 embedV2 version resto (acc ++ [embedV2 mh])
    else none

/-- Source lines 156–187, `generar_conformacion_etkdg(lista_moleculas, version)`:
returns the embedded molecule list, or `None` when an invalid version is hit
while processing a molecule. -/
def generar_conformacion_etkdg (Mol : Type) (addHs embedV1 embedV2 : Mol → Mol)
    (lista_moleculas : List Mol) (version : ℕ) : Option (List Mol) :=
  bucle_etkdg addHs embedV1 embedV2 version lista_moleculas []

/-! ## Per-iteration ensemble table columns (source lines 290–324) -/

/-- The six conformer-generation methods, in the order the loop body of source
lines 294–324 concatenates their descriptor sub-tables. -/
inductive Metodo
  | ETKDGv2
  | ETKDGv1
  | ETDG
  | KDG
  | DGuff
  | DGmmff
deriving DecidableEq

/-- Column suffix given to the sub-table of each method via `DataFrame.add_suffix`
(source lines 298–324): the base method ETKDGv2 is stored unsuffixed, every
other block is suffixed before the horizontal `pd.concat(..., axis=1)`. -/
def sufijo_metodo : Metodo → String
  | .ETKDGv2 => ""
  | .ETKDGv1 => "_ETKDG"
  | .ETDG => "_ETDG"
  | .KDG => "_KDG"
  | .DGuff => "_DGuff"
  | .DGmmff => "_DGmmff"

/-- Concatenation order of the per-method blocks inside one iteration of the
loop at source lines 294–324. -/
def orden_metodos : List Metodo :=
  [.ETKDGv2, .ETKDGv1, .ETDG, .KDG, .DGuff, .DGmmff]

/-- Columns of `resultados_descriptores[iteracion]` after the six horizontal
concatenations of one loop iteration (source lines 294–324), given the base
descriptor column names `descs`.  The loop body is syntactically identical for
every value of `iteracion`, which the unused parameter records. -/
def columnas_resultados (descs : List String) (_iteracion : ℕ) : List String :=
  List.flatMap orden_metodos (fun m => descs.map (fun c => c ++ sufijo_metodo m))

/-! ## Gathering values and `describe()[3:]` (source lines 338–357, 383–398) -/

/-- Source lines 347–349 (and 387–389): the value of ensemble-table column
`col`, row `iMol`, gathered across all `n` iterations;
`resultados it iMol col` is the cell of `resultados_descriptores[it]`
(`none` models a NaN cell). -/
def valores_molecula (resultados : ℕ → ℕ → ℕ → Option ℚ) (n iMol col : ℕ) :
    List (Option ℚ) :=
  (List.range n).map (fun it => resultados it iMol col)

/-- Valid (non-NaN) values of one gathered column; pandas `describe` ignores
NaN entries. -/
def valores_validos (xs : List (Option ℚ)) : List ℚ := xs.filterMap id

/-- Insertion step of the sort used to model the numpy order statistics. -/
def insertar_ordenado (x : ℚ) : List ℚ → List ℚ
  | [] => [x]
  | y :: ys => if x ≤ y then x :: y :: ys else y :: insertar_ordenado x ys

/-- Ascending sort of a rational list (insertion sort). -/
def ordenar (l : List ℚ) : List ℚ := l.foldr insertar_ordenado []

/-- Count row of `describe` for one column: the number of valid values. -/
def cuenta (xs : List (Option ℚ)) : Option ℚ :=
  some ((valores_validos xs).length : ℚ)

/-- Mean row of `describe`: NaN (here `none`) for a column with no valid
value. -/
def media (xs : List (Option ℚ)) : Option ℚ :=
  let v := valores_validos xs
  if v.length = 0 then none else some (v.sum / (v.length : ℚ))

/-- Std row of `describe`: the sample standard deviation with `ddof=1`, NaN for
fewer than two valid values.  The floating-point square root of the external
numeric library is an abstract parameter `pySqrt`. -/
def desviacion (pySqrt : ℚ → ℚ) (xs : List (Option ℚ)) : Option ℚ :=
  let v := valores_validos xs
  if v.length ≤ 1 then none
  else
    let m := v.sum / (v.length : ℚ)
    some (pySqrt ((v.map (fun x => (x - m) ^ 2)).sum / ((v.length : ℚ) - 1)))

/-- Min row of `describe`: the least valid value, NaN when there is none. -/
def minimo (xs : List (Option ℚ)) : Option ℚ :=
  (ordenar (valores_validos xs)).head?

/-- Max row of `describe`: the greatest valid value, NaN when there is none. -/
def maximo (xs : List (Option ℚ)) : Option ℚ :=
  (ordenar (valores_validos xs)).getLast?

/-- Quantile rows of `describe`: the numpy linear-interpolation quantile of the
sorted valid values, NaN when there is none. -/
def cuantil (q : ℚ) (xs : List (Option ℚ)) : Option ℚ :=
  let v := ordenar (valores_validos xs)
  match v with
  | [] => none
  | _ :: _ =>
    let n := v.length
    let h := q * ((n : ℚ) - 1)
    let i := (⌊h⌋).toNat
    some (v.getD i 0 + (h - (i : ℚ)) * (v.getD (min (i + 1) (n - 1)) 0 - v.getD i 0))

/-- The eight rows of pandas `DataFrame.describe()` for one numeric column, in
pandas order. -/
def describe_columna (pySqrt : ℚ → ℚ) (xs : List (Option ℚ)) : List (Option ℚ) :=
  [cuenta xs, media xs, desviacion pySqrt xs, minimo xs,
   cuantil (1 / 4) xs, cuantil (1 / 2) xs, cuantil (3 / 4) xs, maximo xs]

/-- Index labels of pandas `DataFrame.describe()` for numeric data, in order. -/
def etiquetas_describe : List String :=
  ["count", "mean", "std", "min", "25%", "50%", "75%", "max"]

/-- Source lines 352 and 392, `valores_molecula.describe()[3:]`: the positional
row slice keeps rows 3 onward of the describe table. -/
def estadisticas_reducidas (pySqrt : ℚ → ℚ) (xs : List (Option ℚ)) :
    List (Option ℚ) :=
  (describe_columna pySqrt xs).drop 3

/-- Index labels surviving the `[3:]` slice, in the order they keep in the
sliced describe table. -/
def etiquetas_reducidas : List String := etiquetas_describe.drop 3

/-! ## Final column names and the Fortran-order flatten (source lines 365–401) -/

/-- Source lines 371–376: nested loops building `nombres_columnas_finales`,
outer over the descriptor columns of `muestra_estadisticas`, inner over its
statistic index labels, name = statistic label ++ descriptor column label. -/
def nombres_columnas_finales (estad descs : List String) : List String :=
  List.flatMap (List.range descs.length)
    (fun d => (List.range estad.length).map (fun s => estad.getD s "" ++ descs.getD d ""))

/-- Source lines 393–395,
`estadisticas_molecula.values.reshape(1, S*D, order is Fortran)`: Fortran-order
(column-major) linearization of the S×D statistics table, where `tabla s d` is
the cell at statistic row `s` and descriptor column `d`. -/
def reorganizar_fortran {α : Type} (S D : ℕ) (tabla : ℕ → ℕ → α) : List α :=
  (List.range (S * D)).map (fun k => tabla (k % S) (k / S))

/-! ## Row bookkeeping of the final matrices (source lines 206–212, 383–401,
418, 429, 457) -/

/-- Source line 208: `indices_moleculas = list(range(len(conformaciones_uff)))`. -/
def indices_moleculas (n_uff : ℕ) : List ℕ := List.range n_uff

/-- Source lines 383–398: the 3D statistics matrix gains exactly one appended
row per index in `indices_moleculas`; `fila i` is the flattened statistics row
built for molecule index `i`. -/
def matriz_descriptores_estadisticos {α : Type} (fila : ℕ → α) (n_uff : ℕ) :
    List α :=
  (indices_moleculas n_uff).map fila

/-- Source line 418, `calculador_2d.pandas(moleculas_2d)`: one 2D-descriptor
row per input molecule. -/
def matriz_descriptores_2d {Mol α : Type} (desc2d : Mol → α) (ms : List Mol) :
    List α :=
  ms.map desc2d

/-- Row count of `pd.concat([A, B], axis=1)` for two frames with default
`RangeIndex`es of lengths `a` and `b`: the outer join of the two indexes,
`range (max a b)`. -/
def filas_concat_axis1 (a b : ℕ) : ℕ := max a b

/-- Row count of `matriz_completa_descriptores` (source line 429): horizontal
concatenation of the 2D matrix (one row per input molecule) with the 3D
statistics matrix (one row per UFF-surviving molecule). -/
def filas_matriz_completa (nInput n_uff : ℕ) : ℕ := filas_concat_axis1 nInput n_uff

/-- Row count of `dataset_final` (source line 457): horizontal concatenation of
`df_original` (one row per input molecule) with the cleaned descriptor matrix,
whose row count the cell-wise cleaning stage (lines 434–446) leaves unchanged
(`matriz_numerica_preserva_filas` below). -/
def filas_dataset_final (nInput n_uff : ℕ) : ℕ :=
  filas_concat_axis1 nInput (filas_matriz_completa nInput n_uff)

/-! ## Cleaning stage (source lines 433–446) and final cells (lines 457–461) -/

/-- A cell of the exported table: a still-missing value (written as an empty
cell by `to_excel`), a float, or a piece of text such as the `"NA"` marker. -/
inductive CeldaFinal
  | faltante
  | numero (q : ℚ)
  | texto (s : String)
deriving DecidableEq

/-- Bool test for a still-missing exported cell. -/
def celda_faltante : CeldaFinal → Bool
  | .faltante => true
  | _ => false

/-- Source line 437: `columna.str.contains` with the pattern `[a-zA-Z]` on one cell of the
stringified matrix — true when the text holds an alphabetic character.  After
`astype(str)` no NaN cells remain (a NaN prints as the text `nan`), so the
`na=True` fallback of `str.contains` never fires. -/
def contiene_letras (s : String) : Bool := s.data.any Char.isAlpha

/-- Source line 437: the boolean mask `mascara_texto`, one flag per cell of the
stringified matrix `matriz_limpieza`. -/
def mascara_texto (matriz : List (List String)) : List (List Bool) :=
  matriz.map (fun fila => fila.map contiene_letras)

/-- Source line 440, `matriz_limpieza[~mascara_texto]`: indexing a DataFrame
with a boolean DataFrame keeps each cell where the mask holds and turns every
other cell into NaN — it is cell-wise, it removes no row and no column.  Here
the mask is the negation of `mascara_texto`. -/
def aplicar_mascara (matriz : List (List String)) : List (List (Option String)) :=
  matriz.map (fun fila => fila.map (fun s => if contiene_letras s then none else some s))

/-- Source line 443, `.astype(float)`: every surviving cell is parsed by the
abstract Python float parser `pf`; NaN cells stay NaN. -/
def astype_float (pf : String → ℚ) (matriz : List (List (Option String))) :
    List (List (Option ℚ)) :=
  matriz.map (fun fila => fila.map (Option.map pf))

/-- Source line 446, one cell of `.fillna("NA")`: a NaN cell becomes the text
`"NA"`, a float cell is kept. -/
def celda_rellena (c : Option ℚ) : CeldaFinal :=
  match c with
  | some q => .numero q
  | none => .texto "NA"

/-- Source line 446, `.fillna("NA")` over one row. -/
def rellenar_na (fila : List (Option ℚ)) : List CeldaFinal :=
  fila.map celda_rellena

/-- Source lines 434–446 composed: stringified matrix → text mask →
cell-wise masking → float coercion → `fillna("NA")`. -/
def matriz_numerica (pf : String → ℚ) (matriz : List (List String)) :
    List (List CeldaFinal) :=
  (astype_float pf (aplicar_mascara matriz)).map rellenar_na

/-- Cell of `df_original` as it reaches `dataset_final` (source line 457): a
missing input cell stays missing, any other cell keeps its content. -/
def celda_original (c : Option String) : CeldaFinal :=
  match c with
  | some s => .texto s
  | none => .faltante

/-- Source lines 457–461: one exported row of
`pd.concat([df_original, matriz_numerica], axis=1)` — the original input cells
followed by the cleaned descriptor cells of the same row index. -/
def fila_dataset_final (orig : List (Option String)) (numericas : List CeldaFinal) :
    List CeldaFinal :=
  orig.map celda_original ++ numericas

/-- Modelled from the spec (§4.5 and claim C3, column-scope reading): drop
every column that holds at least one alphabetic cell, coerce the remaining
cells to float.  This follows the words of the spec, not the source, and exists
only to be compared with `matriz_numerica`. -/
def limpieza_excluye_columnas (pf : String → ℚ) (matriz : List (List String)) :
    List (List CeldaFinal) :=
  let ancho := (matriz.headD []).length
  let columnas_buenas := (List.range ancho).filter
    (fun j => !(matriz.any (fun fila => contiene_letras (fila.getD j ""))))
  matriz.map (fun fila => columnas_buenas.map (fun j => .numero (pf (fila.getD j ""))))

/-- Modelled from the spec (§4.5 and claim C3, row-scope reading): drop every
row that holds at least one alphabetic cell, coerce the remaining cells to
float.  This follows the words of the spec, not the source, and exists only to be
compared with `matriz_numerica`. -/
def limpieza_excluye_filas (pf : String → ℚ) (matriz : List (List String)) :
    List (List CeldaFinal) :=
  (matriz.filter (fun fila => !(fila.any contiene_letras))).map
    (fun fila => fila.map (fun s => .numero (pf s)))

/-! ## The per-molecule statistics dictionary (source lines 338–357, 365–366) -/

/-- Source lines 341–352: the loop
`for indice_molecula in indices_moleculas: estadisticas_distribucion[indice_molecula] = ...`
builds a dictionary keyed by `0 .. n_uff - 1`; modelled as iterated update of a
lookup function, `stats i` being the describe table stored for molecule `i`. -/
def estadisticas_distribucion (α : Type) (n_uff : ℕ) (stats : ℕ → α) :
    ℕ → Option α :=
  (List.range n_uff).foldl
    (fun d i => fun k => if k = i then some (stats i) else d k)
    (fun _ => none)

/-- Source line 357: the access `estadisticas_distribucion[2]` printed as an
example; a missing key raises `KeyError` in Python, modelled as `none`. -/
def acceso_ejemplo_molecula2 (α : Type) (n_uff : ℕ) (stats : ℕ → α) : Option α :=
  estadisticas_distribucion α n_uff stats 2

/-- Source line 366: `muestra_estadisticas = estadisticas_distribucion[1]`,
the table whose shape drives the final column naming; a missing key raises
`KeyError`, modelled as `none`. -/
def muestra_estadisticas (α : Type) (n_uff : ℕ) (stats : ℕ → α) : Option α :=
  estadisticas_distribucion α n_uff stats 1


/-! ## Helper lemmas -/

/-- The accumulation loop of the UFF/MMFF generators equals filtering the
prepared molecules by the parameter check and optimizing the survivors. -/
theorem bucle_conformaciones_eq {Mol : Type} (prep : Mol → Mol) (check : Mol → Bool)
    (opt : Mol → Mol) (l : List Mol) (acc : List Mol) :
    bucle_conformaciones prep check opt l acc
      = acc ++ ((l.map prep).filter check).map opt := by
  induction l generalizing acc with
  | nil => simp [bucle_conformaciones]
  | cons m resto ih =>
    by_cases h : check (prep m)
    · simp [bucle_conformaciones, h, ih]
    · simp [bucle_conformaciones, h, ih]

/-- The dictionary built by inserting `stats i` under key `i` for
`i = 0 .. n - 1` answers a lookup of `k` with `stats k` when `k < n` and with
nothing otherwise. -/
theorem estadisticas_distribucion_eq (α : Type) (stats : ℕ → α) (n : ℕ) :
    estadisticas_distribucion α n stats
      = fun k => if k < n then some (stats k) else none := by
  induction n with
  | zero => funext k; simp [estadisticas_distribucion]
  | succ n ih =>
    have hstep :
        estadisticas_distribucion α (n + 1) stats
          = fun k => if k = n then some (stats n)
              else estadisticas_distribucion α n stats k := by
      show (List.range (n + 1)).foldl _ _ = _
      rw [List.range_succ, List.foldl_append]
      rfl
    rw [hstep, ih]
    funext k
    by_cases hk : k = n
    · simp [hk]
    · by_cases hlt : k < n
      · simp [hk, hlt, Nat.lt_succ_of_lt hlt]
      · have h2 : ¬ k < n + 1 := by omega
        simp [hk, hlt, h2]

/-- Traversing `range (S * D)` equals a descriptor-major double traversal:
outer loop over the `D` blocks, inner loop over the `S` offsets. -/
theorem range_mul_map {α : Type} (g : ℕ → α) (S D : ℕ) :
    (List.range (S * D)).map g
      = List.flatMap (List.range D)
          (fun d => (List.range S).map (fun s => g (d * S + s))) := by
  induction D with
  | zero => simp
  | succ D ih =>
    have h : S * (D + 1) = S * D + S := by ring
    rw [h, List.range_add, List.map_append, ih, List.range_succ,
      List.flatMap_append]
    simp [List.map_map, Function.comp_def, Nat.mul_comm, Nat.add_comm]

/-- Fortran-order (column-major) linearization of an `S`-row, `D`-column table
is exactly the descriptor-major, statistic-minor double traversal. -/
theorem fortran_igual_anidado {α : Type} (f : ℕ → ℕ → α) (S D : ℕ) (hS : 0 < S) :
    (List.range (S * D)).map (fun k => f (k % S) (k / S))
      = List.flatMap (List.range D)
          (fun d => (List.range S).map (fun s => f s d)) := by
  rw [range_mul_map]
  refine congrArg (List.flatMap (List.range D)) (funext fun d => ?_)
  refine List.map_congr_left fun s hs => ?_
  have hs' : s < S := List.mem_range.mp hs
  have hmod : (d * S + s) % S = s := by
    rw [Nat.add_comm, Nat.add_mul_mod_self_right, Nat.mod_eq_of_lt hs']
  have hdiv : (d * S + s) / S = d := by
    rw [Nat.add_comm, Nat.add_mul_div_right _ _ hS, Nat.div_eq_of_lt hs',
      Nat.zero_add]
  rw [hmod, hdiv]

/-- The cleaning stage of source lines 434–446 never changes the row count. -/
theorem matriz_numerica_preserva_filas (pf : String → ℚ)
    (matriz : List (List String)) :
    (matriz_numerica pf matriz).length = matriz.length := by
  simp [matriz_numerica, astype_float, aplicar_mascara]

/-- A column holding no valid value at all reduces to an empty valid list. -/
theorem valores_validos_replicate_none (k : ℕ) :
    valores_validos (List.replicate k none) = [] := by
  simp [valores_validos]

/-! ## Claim theorems -/

/-- C1, counterexample: `describe()[3:]` keeps five rows, not seven — its index
labels are `min, 25%, 50%, 75%, max`, not
`mean, std, min, 25%, 50%, 75%, max`, and the reduced statistics list of a
concrete column has length 5, not 7. -/
theorem estadisticas_reducidas_no_siete :
    etiquetas_reducidas ≠ ["mean", "std", "min", "25%", "50%", "75%", "max"]
    ∧ etiquetas_reducidas.length = 5
    ∧ (estadisticas_reducidas (fun q => q) [some 1, some 2]).length = 5
    ∧ (estadisticas_reducidas (fun q => q) [some 1, some 2]).length ≠ 7 := by
  refine ⟨by decide, rfl, rfl, by decide⟩

/-- C1 (amended): for every molecule row and column, the Distribution Reducer
`describe()[3:]` reduces the values gathered across the `n` repetitions to
exactly the 5 summary statistics in the fixed order
min, 25th, 50th, 75th percentile, max — the positional slice `[3:]` drops
count, mean and std. -/
theorem estadisticas_reducidas_cinco (pySqrt : ℚ → ℚ)
    (resultados : ℕ → ℕ → ℕ → Option ℚ) (n iMol col : ℕ) :
    estadisticas_reducidas pySqrt (valores_molecula resultados n iMol col)
      = [minimo (valores_molecula resultados n iMol col),
         cuantil (1 / 4) (valores_molecula resultados n iMol col),
         cuantil (1 / 2) (valores_molecula resultados n iMol col),
         cuantil (3 / 4) (valores_molecula resultados n iMol col),
         maximo (valores_molecula resultados n iMol col)]
    ∧ etiquetas_reducidas = ["min", "25%", "50%", "75%", "max"]
    ∧ (estadisticas_reducidas pySqrt (valores_molecula resultados n iMol col)).length
        = 5 := by
  exact ⟨rfl, rfl, rfl⟩

/-- C2: the Fortran-order flatten of the per-molecule statistics table
traverses it descriptor-major, statistic-minor, exactly the order in which
`nombres_columnas_finales` generates the column names; both lists have length
S * D and position `d * S + s` carries statistic `s` of descriptor `d` in the
value list and the name `statistic label ++ descriptor label` in the name
list. -/
theorem aplanado_coincide_con_nombres {α : Type} (estad descs : List String)
    (tabla : ℕ → ℕ → α) (s d : ℕ) (hs : s < estad.length)
    (hd : d < descs.length) :
    reorganizar_fortran estad.length descs.length tabla
      = List.flatMap (List.range descs.length)
          (fun j => (List.range estad.length).map (fun i => tabla i j))
    ∧ (nombres_columnas_finales estad descs).length
        = estad.length * descs.length
    ∧ (reorganizar_fortran estad.length descs.length tabla).length
        = estad.length * descs.length
    ∧ (reorganizar_fortran estad.length descs.length tabla)[d * estad.length + s]?
        = some (tabla s d)
    ∧ (nombres_columnas_finales estad descs)[d * estad.length + s]?
        = some (estad.getD s "" ++ descs.getD d "") := by
  have hS : 0 < estad.length := Nat.lt_of_le_of_lt (Nat.zero_le _) hs
  have hnom : nombres_columnas_finales estad descs
      = (List.range (estad.length * descs.length)).map
          (fun k => estad.getD (k % estad.length) ""
            ++ descs.getD (k / estad.length) "") := by
    rw [fortran_igual_anidado (fun i j => estad.getD i "" ++ descs.getD j "")
      estad.length descs.length hS]
    rfl
  have hlt : d * estad.length + s < estad.length * descs.length := by
    have h1 : d * estad.length + s < (d + 1) * estad.length := by
      rw [Nat.succ_mul]
      exact Nat.add_lt_add_left hs _
    have h2 : (d + 1) * estad.length ≤ descs.length * estad.length :=
      Nat.mul_le_mul_right _ hd
    calc d * estad.length + s < (d + 1) * estad.length := h1
      _ ≤ descs.length * estad.length := h2
      _ = estad.length * descs.length := Nat.mul_comm _ _
  have hmod : (d * estad.length + s) % estad.length = s := by
    rw [Nat.add_comm, Nat.add_mul_mod_self_right, Nat.mod_eq_of_lt hs]
  have hdiv : (d * estad.length + s) / estad.length = d := by
    rw [Nat.add_comm, Nat.add_mul_div_right _ _ hS, Nat.div_eq_of_lt hs,
      Nat.zero_add]
  refine ⟨fortran_igual_anidado tabla estad.length descs.length hS, ?_, ?_, ?_, ?_⟩
  · rw [hnom]; simp
  · simp [reorganizar_fortran]
  · rw [reorganizar_fortran, List.getElem?_map, List.getElem?_range hlt]
    simp [hmod, hdiv]
  · rw [hnom, List.getElem?_map, List.getElem?_range hlt]
    simp [hmod, hdiv]

/-- C2, witness: the correspondence at the concrete statistics labels
`min, 25%`, descriptors `TPSA, GRAV`, position (statistic 1, descriptor 1). -/
theorem aplanado_coincide_con_nombres_witness :
    reorganizar_fortran (["min", "25%"] : List String).length
        (["TPSA", "GRAV"] : List String).length (fun i j => i + 2 * j)
      = List.flatMap (List.range (["TPSA", "GRAV"] : List String).length)
          (fun j => (List.range (["min", "25%"] : List String).length).map
            (fun i => i + 2 * j))
    ∧ (nombres_columnas_finales ["min", "25%"] ["TPSA", "GRAV"]).length
        = (["min", "25%"] : List String).length
          * (["TPSA", "GRAV"] : List String).length
    ∧ (reorganizar_fortran (["min", "25%"] : List String).length
        (["TPSA", "GRAV"] : List String).length
        (fun i j => i + 2 * j)).length
        = (["min", "25%"] : List String).length
          * (["TPSA", "GRAV"] : List String).length
    ∧ (reorganizar_fortran (["min", "25%"] : List String).length
        (["TPSA", "GRAV"] : List String).length
        (fun i j => i + 2 * j))[1 * (["min", "25%"] : List String).length + 1]?
        = some ((fun i j => i + 2 * j) 1 1)
    ∧ (nombres_columnas_finales ["min", "25%"]
        ["TPSA", "GRAV"])[1 * (["min", "25%"] : List String).length + 1]?
        = some ((["min", "25%"] : List String).getD 1 ""
            ++ (["TPSA", "GRAV"] : List String).getD 1 "") :=
  aplanado_coincide_con_nombres ["min", "25%"] ["TPSA", "GRAV"]
    (fun i j => i + 2 * j) 1 1 (by decide) (by decide)


/-- C3, counterexample: on the 2-row, 1-column matrix whose first cell is the
text `abc` and whose second cell is `1`, the code keeps both rows and the
column, replacing only the offending cell with the `NA` marker — it matches
neither the column-exclusion nor the row-exclusion policy the claim states. -/
theorem limpieza_contraejemplo :
    matriz_numerica (fun _ => (0 : ℚ)) [["abc"], ["1"]]
      = [[CeldaFinal.texto "NA"], [CeldaFinal.numero 0]]
    ∧ limpieza_excluye_columnas (fun _ => (0 : ℚ)) [["abc"], ["1"]] = [[], []]
    ∧ limpieza_excluye_filas (fun _ => (0 : ℚ)) [["abc"], ["1"]]
        = [[CeldaFinal.numero 0]]
    ∧ matriz_numerica (fun _ => (0 : ℚ)) [["abc"], ["1"]]
        ≠ limpieza_excluye_columnas (fun _ => (0 : ℚ)) [["abc"], ["1"]]
    ∧ matriz_numerica (fun _ => (0 : ℚ)) [["abc"], ["1"]]
        ≠ limpieza_excluye_filas (fun _ => (0 : ℚ)) [["abc"], ["1"]] := by
  decide

/-- C3 (amended): the post-assembly cleaning is cell-wise, not column- or
row-wise — every cell whose textual representation holds an alphabetic
character is individually replaced by the `NA` marker, every other cell is
coerced to floating point by the external parser, and the shape of the matrix
(row count and the length of every row) is preserved. -/
theorem limpieza_celda_a_celda (pf : String → ℚ) (matriz : List (List String)) :
    matriz_numerica pf matriz
      = matriz.map (fun fila => fila.map
          (fun s => if contiene_letras s then CeldaFinal.texto "NA"
            else CeldaFinal.numero (pf s)))
    ∧ (matriz_numerica pf matriz).length = matriz.length
    ∧ (matriz_numerica pf matriz).map List.length = matriz.map List.length := by
  have h : matriz_numerica pf matriz
      = matriz.map (fun fila => fila.map
          (fun s => if contiene_letras s then CeldaFinal.texto "NA"
            else CeldaFinal.numero (pf s))) := by
    rw [matriz_numerica, astype_float, aplicar_mascara, List.map_map, List.map_map]
    refine List.map_congr_left fun fila _ => ?_
    simp only [Function.comp_def, rellenar_na, List.map_map]
    refine List.map_congr_left fun s _ => ?_
    by_cases hcl : contiene_letras s <;> simp [hcl, celda_rellena]
  refine ⟨h, matriz_numerica_preserva_filas pf matriz, ?_⟩
  simp [h, List.map_map, Function.comp_def]

/-- C4, counterexample: with two input molecules of which the second fails the
UFF parameter check, the 3D statistics matrix gains one row, not one row per
input molecule. -/
theorem filas_3d_contraejemplo :
    (generar_conformacion_uff Bool id id (fun b => b) id [true, false]).length = 1
    ∧ (matriz_descriptores_estadisticos (fun i => i)
        (generar_conformacion_uff Bool id id (fun b => b) id
          [true, false]).length).length = 1
    ∧ ([true, false] : List Bool).length = 2
    ∧ (matriz_descriptores_estadisticos (fun i => i)
        (generar_conformacion_uff Bool id id (fun b => b) id
          [true, false]).length).length
      ≠ ([true, false] : List Bool).length := by
  decide

/-- C4 (amended): the row count of the exported `dataset_final` equals the
input molecule count, because the 2D matrix always has one row per input
molecule, the horizontal concatenations outer-join the row indexes, and the
cleaning stage is cell-wise; the 3D statistics matrix, however, has exactly
one row per UFF-surviving molecule (`len(conformaciones_uff)`, at most the
input count), not one row per input molecule. -/
theorem filas_dataset_final_igual_entrada (Mol : Type) {α : Type}
    (addHs embedBasic : Mol → Mol) (uffHasAllParams : Mol → Bool)
    (uffOptimize : Mol → Mol) (fila : ℕ → α) (pf : String → ℚ)
    (lista : List Mol) (matriz : List (List String)) :
    filas_dataset_final lista.length
        (generar_conformacion_uff Mol addHs embedBasic uffHasAllParams
          uffOptimize lista).length
      = lista.length
    ∧ (matriz_descriptores_estadisticos fila
        (generar_conformacion_uff Mol addHs embedBasic uffHasAllParams
          uffOptimize lista).length).length
      = (generar_conformacion_uff Mol addHs embedBasic uffHasAllParams
          uffOptimize lista).length
    ∧ (generar_conformacion_uff Mol addHs embedBasic uffHasAllParams
        uffOptimize lista).length ≤ lista.length
    ∧ (matriz_numerica pf matriz).length = matriz.length := by
  have hle : (generar_conformacion_uff Mol addHs embedBasic uffHasAllParams
      uffOptimize lista).length ≤ lista.length := by
    rw [generar_conformacion_uff, bucle_conformaciones_eq]
    simp only [List.nil_append, List.length_map]
    calc (List.filter uffHasAllParams (lista.map fun m => embedBasic (addHs m))).length
        ≤ (lista.map fun m => embedBasic (addHs m)).length :=
          List.length_filter_le _ _
      _ = lista.length := List.length_map _ _
  refine ⟨?_, ?_, hle, matriz_numerica_preserva_filas pf matriz⟩
  · rw [filas_dataset_final, filas_matriz_completa, filas_concat_axis1,
      filas_concat_axis1]
    omega
  · simp [matriz_descriptores_estadisticos, indices_moleculas]

/-- C5, counterexample: a missing cell of the original input table passes into
the exported row untouched — it stays a bare missing cell, which is not the
`NA` text marker — so not every missing value of the exported table is encoded
as `NA`. -/
theorem na_contraejemplo :
    fila_dataset_final [none] (rellenar_na [none])
      = [CeldaFinal.faltante, CeldaFinal.texto "NA"]
    ∧ celda_faltante CeldaFinal.faltante = true
    ∧ CeldaFinal.faltante ≠ CeldaFinal.texto "NA" := by
  decide

/-- C5 (amended): within the cleaned descriptor matrix every missing value —
including the cells left missing by conformer-generation drops — is encoded as
the literal text `NA`, which is distinguishable from the number 0 and is not a
missing cell; missing cells of the preserved original input columns are not
rewritten. -/
theorem na_en_matriz_numerica (fila : List (Option ℚ)) (k : ℕ) :
    ((rellenar_na fila).all (fun c => !(celda_faltante c))) = true
    ∧ rellenar_na (List.replicate k none) = List.replicate k (CeldaFinal.texto "NA")
    ∧ CeldaFinal.texto "NA" ≠ CeldaFinal.numero 0
    ∧ celda_faltante (CeldaFinal.texto "NA") = false := by
  refine ⟨?_, ?_, by decide, rfl⟩
  · rw [List.all_eq_true]
    intro c hc
    rw [rellenar_na, List.mem_map] at hc
    obtain ⟨x, _, rfl⟩ := hc
    cases x <;> simp [celda_rellena, celda_faltante]
  · simp [rellenar_na, List.map_replicate, celda_rellena]

/-- C6: the UFF and MMFF conformer generators return exactly the
hydrogen-added, embedded molecules that pass the respective force-field
parameter check, optimized, in input order (a filter of the prepared input
list), so each result has at most the input length. -/
theorem conformaciones_uff_mmff_filtran (Mol : Type)
    (addHs embedBasic uffOptimize mmffOptimize : Mol → Mol)
    (uffHasAllParams mmffHasAllParams : Mol → Bool) (lista : List Mol) :
    generar_conformacion_uff Mol addHs embedBasic uffHasAllParams uffOptimize lista
      = ((lista.map (fun m => embedBasic (addHs m))).filter uffHasAllParams).map
          uffOptimize
    ∧ generar_conformacion_mmff Mol addHs embedBasic mmffHasAllParams mmffOptimize
        lista
      = ((lista.map (fun m => embedBasic (addHs m))).filter mmffHasAllParams).map
          mmffOptimize
    ∧ (generar_conformacion_uff Mol addHs embedBasic uffHasAllParams uffOptimize
        lista).length ≤ lista.length
    ∧ (generar_conformacion_mmff Mol addHs embedBasic mmffHasAllParams
        mmffOptimize lista).length ≤ lista.length := by
  have huff : generar_conformacion_uff Mol addHs embedBasic uffHasAllParams
      uffOptimize lista
      = ((lista.map (fun m => embedBasic (addHs m))).filter uffHasAllParams).map
          uffOptimize := by
    rw [generar_conformacion_uff, bucle_conformaciones_eq, List.nil_append]
  have hmmff : generar_conformacion_mmff Mol addHs embedBasic mmffHasAllParams
      mmffOptimize lista
      = ((lista.map (fun m => embedBasic (addHs m))).filter mmffHasAllParams).map
          mmffOptimize := by
    rw [generar_conformacion_mmff, bucle_conformaciones_eq, List.nil_append]
  refine ⟨huff, hmmff, ?_, ?_⟩
  · rw [huff, List.length_map]
    calc (List.filter uffHasAllParams (lista.map fun m => embedBasic (addHs m))).length
        ≤ (lista.map fun m => embedBasic (addHs m)).length :=
          List.length_filter_le _ _
      _ = lista.length := List.length_map _ _
  · rw [hmmff, List.length_map]
    calc (List.filter mmffHasAllParams (lista.map fun m => embedBasic (addHs m))).length
        ≤ (lista.map fun m => embedBasic (addHs m)).length :=
          List.length_filter_le _ _
      _ = lista.length := List.length_map _ _

/-- C7: in every repetition the per-method descriptor blocks are concatenated
horizontally in the fixed order ETKDGv2 (unsuffixed), ETKDGv1, ETDG, KDG, UFF,
MMFF, each non-base block suffixed with its own method suffix — in particular
the UFF block carries the suffix `_DGuff` — and the resulting column list is
the same for every pair of repetitions. -/
theorem columnas_sufijos (descs : List String) (i j : ℕ) :
    columnas_resultados descs i = columnas_resultados descs j
    ∧ columnas_resultados descs i
        = descs ++ descs.map (fun c => c ++ "_ETKDG")
          ++ descs.map (fun c => c ++ "_ETDG")
          ++ descs.map (fun c => c ++ "_KDG")
          ++ descs.map (fun c => c ++ "_DGuff")
          ++ descs.map (fun c => c ++ "_DGmmff")
    ∧ sufijo_metodo Metodo.ETKDGv2 = ""
    ∧ sufijo_metodo Metodo.DGuff = "_DGuff"
    ∧ descs.map (fun c => c ++ sufijo_metodo Metodo.ETKDGv2) = descs := by
  have hbase : descs.map (fun c => c ++ sufijo_metodo Metodo.ETKDGv2) = descs := by
    simp [sufijo_metodo]
  refine ⟨rfl, ?_, rfl, rfl, hbase⟩
  simp [columnas_resultados, orden_metodos, sufijo_metodo, List.flatMap,
    List.append_assoc]

/-- C8: for every molecule row, ensemble column and repetition count `n`, the
number of valid samples gathered across the `n` repetitions lies between 0 and
`n` inclusive; the Distribution Reducer is a total function producing the same
five-entry statistics list for every such count, and a column with no valid
value at all reduces to five missing statistics rather than an error. -/
theorem reductor_tolerante (pySqrt : ℚ → ℚ) (resultados : ℕ → ℕ → ℕ → Option ℚ)
    (n iMol col k : ℕ) :
    0 ≤ (valores_validos (valores_molecula resultados n iMol col)).length
    ∧ (valores_validos (valores_molecula resultados n iMol col)).length ≤ n
    ∧ (estadisticas_reducidas pySqrt (valores_molecula resultados n iMol col)).length
        = 5
    ∧ estadisticas_reducidas pySqrt (List.replicate k none)
        = List.replicate 5 none := by
  refine ⟨Nat.zero_le _, ?_, rfl, ?_⟩
  · calc (valores_validos (valores_molecula resultados n iMol col)).length
        ≤ (valores_molecula resultados n iMol col).length :=
          List.length_filterMap_le _ _
      _ = n := by simp [valores_molecula]
  · have hv := valores_validos_replicate_none k
    simp [estadisticas_reducidas, describe_columna, media, desviacion, minimo,
      maximo, cuantil, hv, ordenar, List.replicate]

/-- C9, counterexample: an invalid version identifier is not fatal at the
configuration point — the generator returns the degraded `None` sentinel for a
nonempty molecule list, and even returns a successful empty result when the
molecule list is empty, because the version check sits inside the per-molecule
loop. -/
theorem version_invalida_contraejemplo :
    generar_conformacion_etkdg Unit id id id [] 3 = some []
    ∧ generar_conformacion_etkdg Unit id id id [] 3 ≠ none
    ∧ generar_conformacion_etkdg Unit id id id [()] 3 = none
    ∧ generar_conformacion_etkdg Unit id id id [()] 2 = some [()] := by
  decide

/-- C9 (amended): a version identifier other than 1 or 2 makes
`generar_conformacion_etkdg` report the error and return the `None` sentinel —
a degraded return value, not an exception — and the check is only reached per
molecule, so an empty molecule list yields an empty successful result with no
version validation at all. -/
theorem version_invalida_devuelve_none (Mol : Type) (addHs embedV1 embedV2 : Mol → Mol)
    (lista : List Mol) (version : ℕ) (h1 : version ≠ 1) (h2 : version ≠ 2) :
    generar_conformacion_etkdg Mol addHs embedV1 embedV2 lista version
      = if lista.isEmpty then some [] else none := by
  cases lista with
  | nil => rfl
  | cons m resto =>
    simp [generar_conformacion_etkdg, bucle_etkdg, h1, h2]

/-- C9, witness: the amended statement at the concrete invalid version 3 and a
one-molecule list. -/
theorem version_invalida_devuelve_none_witness :
    generar_conformacion_etkdg Unit id id id [()] 3 = none :=
  version_invalida_devuelve_none Unit id id id [()] 3 (by decide) (by decide)

/-- C10: the statistical-analysis stage accesses the accumulated dictionary at
keys 2 (source line 357) and 1 (source line 366) unconditionally, and both
lookups succeed exactly when at least 3 molecules pass the UFF parameter check
— with fewer survivors the run dies on a failed lookup (`KeyError`) instead of
reaching the output table. -/
theorem acceso_estadisticas_requiere_tres (α : Type) (Mol : Type)
    (addHs embedBasic : Mol → Mol) (uffHasAllParams : Mol → Bool)
    (uffOptimize : Mol → Mol) (lista : List Mol) (stats : ℕ → α) :
    ((acceso_ejemplo_molecula2 α
        (generar_conformacion_uff Mol addHs embedBasic uffHasAllParams
          uffOptimize lista).length stats).isSome = true
      ∧ (muestra_estadisticas α
        (generar_conformacion_uff Mol addHs embedBasic uffHasAllParams
          uffOptimize lista).length stats).isSome = true)
    ↔ 3 ≤ lista.countP (fun m => uffHasAllParams (embedBasic (addHs m))) := by
  have hlen : (generar_conformacion_uff Mol addHs embedBasic uffHasAllParams
      uffOptimize lista).length
      = lista.countP (fun m => uffHasAllParams (embedBasic (addHs m))) := by
    rw [generar_conformacion_uff, bucle_conformaciones_eq, List.nil_append,
      List.length_map, ← List.countP_eq_length_filter, List.countP_map]
    rfl
  rw [acceso_ejemplo_molecula2, muestra_estadisticas,
    estadisticas_distribucion_eq, hlen]
  constructor
  · rintro ⟨h2, _⟩
    by_contra hn
    have hlt : ¬ 2 < lista.countP (fun m => uffHasAllParams (embedBasic (addHs m))) := by
      omega
    simp [hlt] at h2
  · intro hn
    have h2 : 2 < lista.countP (fun m => uffHasAllParams (embedBasic (addHs m))) := by
      omega
    have h1 : 1 < lista.countP (fun m => uffHasAllParams (embedBasic (addHs m))) := by
      omega
    constructor
    · simp [h2]
    · simp [h1]

end MolDesc
